import Mathlib

/-!
Shallow embedding of the SYMindX `ApiExtension` command dispatch gateway
(`src/mind-agents/src/modules/tools/skills/common.skills.ts`, class
`ApiExtension`): HTTP routes (`/chat`, `/memory`, `/action`), the
WebSocket frame handler, the authentication middleware and the
connection registry, together with theorems checking the
natural-language specification against this embedding.

Modelling conventions:
- JavaScript strings are modelled by Lean `String`; the two string
  operations the source uses on the auth header and the random id
  (`String.prototype.startsWith`, `String.prototype.substring`) are
  modelled character-wise (`strStartsWith`, `strDrop`, `strTake`),
  since all the literals involved are ASCII.
- Collaborators the dispatcher treats as opaque (a handler `execute`,
  the portal `generateChat`, the memory store) are modelled as
  functions returning `Except String _` (a `.error` models a raised
  exception) paired with the elapsed milliseconds their awaited call
  took; the gateway code itself takes no time, matching the spec
  stance that handler execution is the only long-running step.
- `Date` timestamps that only decorate replies are passed in as a
  `now` argument.
- The mutable `connections` JavaScript `Map` is modelled as an
  association list with `Map.set` replace-or-append semantics.
-/

namespace SYMindX

/-- Character-level model of JavaScript `s.startsWith(p)`. -/
def strStartsWith (s p : String) : Bool :=
  p.data.isPrefixOf s.data

/-- Character-level model of JavaScript `s.substring(n)` (drop the first
`n` characters). -/
def strDrop (s : String) (n : Nat) : String :=
  ⟨s.data.drop n⟩

/-- Character-level model of taking the first `n` characters, used to
express JavaScript `s.substring(a, b)` as a drop followed by a take. -/
def strTake (s : String) (n : Nat) : String :=
  ⟨s.data.take n⟩

/-- JavaScript `Map.prototype.set`: replace the value in place when
the key is present, append a new entry at the end otherwise. -/
def mapSet {α : Type} : List (String × α) → String → α → List (String × α)
  | [], k, v => [(k, v)]
  | p :: rest, k, v => if p.1 = k then (k, v) :: rest else p :: mapSet rest k v

/-- JavaScript `Map.prototype.delete`: remove the entry when present;
on an absent key the map is unchanged and no error is raised. -/
def mapDelete {α : Type} : List (String × α) → String → List (String × α)
  | [], _ => []
  | p :: rest, k => if p.1 = k then mapDelete rest k else p :: mapDelete rest k

/-- JavaScript `Map.prototype.get`, as an option. -/
def mapGet {α : Type} : List (String × α) → String → Option α
  | [], _ => none
  | p :: rest, k => if p.1 = k then some p.2 else mapGet rest k

/-! ## Data model (the shapes from `./types.js` that the gateway uses) -/

/-- Opaque parameter bag; the dispatcher never inspects it. -/
abbrev Params := List (String × String)

/-- The `ActionResult` a handler `execute` resolves with:
`{ success, result?, error? }`. -/
structure ActionResult where
  success : Bool
  result : Option String := none
  error : Option String := none
deriving Repr, DecidableEq

/-- The `ActionResponse` body returned by `executeAction`:
`{ success, result?, error?, executionTime }`. -/
structure ActionResponse where
  success : Bool
  result : Option String := none
  error : Option String := none
  executionTime : Nat
deriving Repr, DecidableEq

/-- One registered `ExtensionAction`: its `execute` is an awaited call
that either resolves with an `ActionResult` or raises (modelled by
`Except.error message`), and takes some elapsed milliseconds. -/
structure ExtensionAction where
  execute : Params → Except String ActionResult × Nat

/-- One loaded extension: its `actions` record, keyed by action name.
The JavaScript object lookup `ext.actions[name]` is the first match in
the association list. -/
structure LoadedExtension where
  actions : List (String × ExtensionAction)

/-- Result the portal `generateChat` resolves with
(`result.message.content` and `result.usage?.totalTokens`). -/
structure PortalResult where
  content : String
  totalTokens : Option Nat := none

/-- The agent reasoning backend: `generateChat(messages, {maxTokens})`
either resolves or raises, taking some elapsed milliseconds. -/
structure Portal where
  generateChat : List (String × String) → Option Nat → Except String PortalResult × Nat

/-- The agent memory store, with `retrieve` and `store` both able to
raise. -/
structure MemoryStore where
  retrieve : String → String → Nat → Except String (List String)
  store : String → String → Except String Unit

/-- The agent handed to the extension by `init`; `this.agent` is
`Option Agent` in the gateway state (undefined before `init`). -/
structure Agent where
  id : String
  portal : Option Portal := none
  memory : MemoryStore
  extensions : List LoadedExtension := []

/-- `ActionRequest`: `{ action, parameters? }`. -/
structure ActionRequest where
  action : String
  parameters : Params := []
deriving Repr

/-- `ChatRequest`: `{ message, context?: { sessionId }, options?:
{ maxTokens } }`, with the optional nested fields flattened. -/
structure ChatRequest where
  message : String
  sessionId : Option String := none
  maxTokens : Option Nat := none
deriving Repr, DecidableEq

/-- `ChatResponse.metadata`: `{ tokensUsed?, processingTime }`. -/
structure ChatMetadata where
  tokensUsed : Option Nat := none
  processingTime : Nat
deriving Repr, DecidableEq

/-- `ChatResponse`: `{ response, sessionId?, timestamp, metadata? }`. -/
structure ChatResponse where
  response : String
  sessionId : Option String := none
  timestamp : String
  metadata : Option ChatMetadata := none
deriving Repr, DecidableEq

/-- `MemoryRequest`: the fields of the request body the gateway reads. -/
structure MemoryRequest where
  type : Option String := none
  content : String
deriving Repr, DecidableEq

/-- `MemoryResponse`: `{ success, id, timestamp, error? }`. -/
structure MemoryResponse where
  success : Bool
  id : String
  timestamp : String
  error : Option String := none
deriving Repr, DecidableEq

/-- `WebSocketMessage`: `{ type, data? }` as parsed from an inbound
frame; only the `chat` branch reads `data`. -/
structure WebSocketMessage where
  type : String
  data : String := ""
deriving Repr, DecidableEq

/-! ## Dispatcher core: `executeAction` -/

/-- The handler-resolution loop of `executeAction`: walk
`agent.extensions` in order and return the first extension action
registered under the requested name. -/
def findAction : List LoadedExtension → String → Option ExtensionAction
  | [], _ => none
  | ext :: rest, name =>
    match ext.actions.lookup name with
    | some action => some action
    | none => findAction rest name

/-- `ApiExtension.executeAction`. Branches, in source order: no agent
yet (`Agent not initialized`, executionTime 0); first extension owning
the action: awaited `execute` resolving (its `ActionResult` copied into
the response with the elapsed time) or raising (caught, converted to a
failure response with the message); no extension owning the action
(`not found` failure). The only time that elapses is the awaited
handler call, so the not-found branch reports elapsed 0. -/
def executeAction (agent : Option Agent) (request : ActionRequest) : ActionResponse :=
  match agent with
  | none => { success := false, executionTime := 0, error := some "Agent not initialized" }
  | some a =>
    match findAction a.extensions request.action with
    | some action =>
      match action.execute request.parameters with
      | (.ok res, elapsed) =>
        { success := res.success, result := res.result, error := res.error,
          executionTime := elapsed }
      | (.error msg, elapsed) =>
        { success := false, error := some msg, executionTime := elapsed }
    | none =>
      { success := false,
        error := some ("Action \x27" ++ request.action ++ "\x27 not found"),
        executionTime := 0 }

/-! ## Policy layer: authentication middleware and rate limiter -/

/-- Outcome of a middleware gate: either a denial reply (status and
error body) was already sent, or the request passed through to the
next stage. -/
inductive AuthOutcome where
  | denied (status : Nat) (error : String)
  | passed
deriving Repr, DecidableEq

/-- `ApiExtension.authMiddleware`: read the `authorization` header; a
missing header or one that does not start with `Bearer ` is rejected
401 `Unauthorized`; otherwise the token is the header minus its first
7 characters, and a token different from the configured secret is
rejected 401 `Invalid token`; a matching token calls `next()`. -/
def authMiddleware (secret : String) (authHeader : Option String) : AuthOutcome :=
  match authHeader with
  | none => .denied 401 "Unauthorized"
  | some h =>
    if ¬ strStartsWith h "Bearer " then .denied 401 "Unauthorized"
    else
      let token := strDrop h 7
      if token ≠ secret then .denied 401 "Invalid token"
      else .passed

/-- `setupMiddleware` installs `authMiddleware` only when
`auth.enabled`; with auth disabled every request passes through. -/
def admitAuth (authEnabled : Bool) (secret : String) (authHeader : Option String) :
    AuthOutcome :=
  if authEnabled then authMiddleware secret authHeader else .passed

/-- Fixed-window rate limiter configuration
(`rateLimit.windowMs`, `rateLimit.maxRequests`). -/
structure RateLimitConfig where
  windowMs : Nat
  maxRequests : Nat
deriving Repr, DecidableEq

/-- One per-client window, the value type of the declared
`rateLimiters` map: `{ count, resetTime }`, with `resetTime` the
window start (spec name `windowStart`). -/
structure RateWindow where
  windowStart : Nat
  count : Nat
deriving Repr, DecidableEq

/-- Modelled from the spec: the per-client fixed-window admission step
behind the `rateLimiters : Map<string, { count, resetTime }>` field.
The field is declared in the source but the admission algorithm itself
is delegated to middleware outside this file, so the step is taken
from the spec text: if no window exists or `now >= windowStart +
windowSizeMs`, start a fresh window with count 1; else increment the
count; deny when the post-increment count exceeds `maxRequests`,
keeping the window state (start unchanged, incremented count recorded)
rather than resetting it. Returns (admitted?, new window). -/
def rateLimitAdmit (cfg : RateLimitConfig) (w : Option RateWindow) (now : Nat) :
    Bool × RateWindow :=
  match w with
  | none => (true, ⟨now, 1⟩)
  | some win =>
    if win.windowStart + cfg.windowMs ≤ now then (true, ⟨now, 1⟩)
    else
      let c := win.count + 1
      if cfg.maxRequests < c then (false, ⟨win.windowStart, c⟩)
      else (true, ⟨win.windowStart, c⟩)

/-- Run a sequence of admissions for one client key from no window,
returning the list of admission decisions (used to replay the spec
scenario). -/
def rateLimitRun (cfg : RateLimitConfig) : Option RateWindow → List Nat → List Bool
  | _, [] => []
  | w, now :: rest =>
    let (ok, w2) := rateLimitAdmit cfg w now
    ok :: rateLimitRun cfg (some w2) rest

/-- Modelled from the spec: the per-client-key view of the
`rateLimiters` map — admission for one key reads and rewrites only
that key's window. -/
def rateLimitersAdmit (cfg : RateLimitConfig) (m : List (String × RateWindow))
    (key : String) (now : Nat) : Bool × List (String × RateWindow) :=
  let step := rateLimitAdmit cfg (mapGet m key) now
  (step.1, mapSet m key step.2)

/-! ## Chat and memory operations -/

/-- `ApiExtension.processChatMessage`: before any portal call, an
uninitialized agent or an agent without a portal yields a
success-shaped `ChatResponse` carrying the condition as its `response`
text; otherwise `portal.generateChat` is awaited, a resolution filling
the response and metadata, a raised error caught and converted to the
`Failed to process chat` response (with only `processingTime` in the
metadata). -/
def processChatMessage (agent : Option Agent) (request : ChatRequest) (now : String) :
    ChatResponse :=
  match agent with
  | none => { response := "Agent not initialized", timestamp := now }
  | some a =>
    match a.portal with
    | none => { response := "No portal configured for agent", timestamp := now }
    | some portal =>
      match portal.generateChat [("user", request.message)] request.maxTokens with
      | (.ok res, elapsed) =>
        { response := res.content, sessionId := request.sessionId, timestamp := now,
          metadata := some { tokensUsed := res.totalTokens, processingTime := elapsed } }
      | (.error _, elapsed) =>
        { response := "Failed to process chat", sessionId := request.sessionId,
          timestamp := now,
          metadata := some { tokensUsed := none, processingTime := elapsed } }

/-- `ApiExtension.getMemories`: empty list when uninitialized; a raised
retrieval error is caught and converted to the empty list. -/
def getMemories (agent : Option Agent) : List String :=
  match agent with
  | none => []
  | some a =>
    match a.memory.retrieve a.id "recent" 20 with
    | .ok ms => ms
    | .error _ => []

/-- `ApiExtension.storeMemory`: failure response when uninitialized;
otherwise the store call is awaited, success and a raised error both
converted to a `MemoryResponse` (the generated memory id and creation
timestamp are passed in as `memId` and `now`). -/
def storeMemory (agent : Option Agent) (request : MemoryRequest) (memId : String)
    (now : String) : MemoryResponse :=
  match agent with
  | none => { success := false, id := "", timestamp := now, error := some "Agent not initialized" }
  | some a =>
    match a.memory.store a.id request.content with
    | .ok _ => { success := true, id := memId, timestamp := now }
    | .error e =>
      { success := false, id := memId, timestamp := now, error := some e }

/-! ## Connection registry and WebSocket handler -/

/-- Opaque identity of one physical WebSocket (the `ws` object). -/
abbrev WsChannel := Nat

/-- The `connections` JavaScript `Map<string, WebSocket>`, as an
association list in insertion order (a JavaScript `Map` keeps unique
keys in insertion order). -/
abbrev Connections := List (String × WsChannel)

/-- `ApiExtension.generateConnectionId`:
`Math.random().toString(36).substring(2, 15)` — a pure function of the
random draw (given here as its base-36 string, such as `0.k5s8t2p9q1w`),
keeping characters 2 through 14. No uniqueness check is performed. -/
def generateConnectionId (randStr : String) : String :=
  strTake (strDrop randStr 2) 13

/-- The `connection` handler of `setupWebSocketServer`: generate an id
from the random draw and `connections.set(connectionId, ws)`; returns
the id handed to the message/close handlers and the updated map. -/
def registerConnection (conns : Connections) (randStr : String) (ws : WsChannel) :
    String × Connections :=
  let connectionId := generateConnectionId randStr
  (connectionId, mapSet conns connectionId ws)

/-- The `close` and `error` handlers both run
`connections.delete(connectionId)`. -/
def unregisterConnection (conns : Connections) (connectionId : String) : Connections :=
  mapDelete conns connectionId

/-- One frame pushed to a WebSocket peer, by shape: `{type: "pong",
timestamp}`, `{type: "chat_response", data}`, `{type: "welcome",
connectionId, timestamp}`, or a bare `{error}` object with no `type`
and no kind field. -/
inductive WsReply where
  | pong (timestamp : String)
  | chatResponse (data : ChatResponse)
  | welcome (connectionId : String) (timestamp : String)
  | errorReply (error : String)
deriving Repr, DecidableEq

/-- `ApiExtension.handleWebSocketMessage`: look the connection up by
id — when absent, return with no send at all; otherwise switch on
`message.type`: `ping` answers a `pong`, `chat` runs
`processChatMessage` on `message.data` and answers a `chat_response`
envelope, and every other type answers `{error: "Unknown message
type"}`. Returns the frames sent, each tagged with the id they were
sent to. -/
def handleWebSocketMessage (conns : Connections) (agent : Option Agent)
    (connectionId : String) (message : WebSocketMessage) (now : String) :
    List (String × WsReply) :=
  match mapGet conns connectionId with
  | none => []
  | some _ =>
    if message.type = "ping" then
      [(connectionId, .pong now)]
    else if message.type = "chat" then
      [(connectionId, .chatResponse (processChatMessage agent { message := message.data } now))]
    else
      [(connectionId, .errorReply "Unknown message type")]

/-! ## HTTP routes and the gateway reply function -/

/-- Body of an HTTP reply, one constructor per `res.json` shape the
route handlers produce. -/
inductive HttpBody where
  | chat (r : ChatResponse)
  | action (r : ActionResponse)
  | memories (ms : List String)
  | memoryStored (r : MemoryResponse)
  | errorBody (error : String)
deriving Repr, DecidableEq

/-- One HTTP reply: status code and JSON body (`res.json` alone sends
status 200). -/
structure HttpReply where
  status : Nat
  body : HttpBody
deriving Repr, DecidableEq

/-- The `POST /chat` route: a falsy `message` (absent or empty string)
is rejected 400 before the agent is consulted; otherwise
`processChatMessage` is awaited and its `ChatResponse` sent with
status 200. -/
def chatRoute (agent : Option Agent) (request : ChatRequest) (now : String) : HttpReply :=
  if request.message = "" then ⟨400, .errorBody "Message is required"⟩
  else ⟨200, .chat (processChatMessage agent request now)⟩

/-- The `POST /action` route: `executeAction` is awaited and its
`ActionResponse` sent with status 200 (also for unsuccessful
responses; the 500 catch guards only a rejection of `executeAction`
itself, which never occurs since every fallible step inside it is
caught). -/
def actionRoute (agent : Option Agent) (request : ActionRequest) : HttpReply :=
  ⟨200, .action (executeAction agent request)⟩

/-- The `GET /memory` route: `getMemories` is awaited and wrapped in a
`{memories}` body with status 200. -/
def memoryGetRoute (agent : Option Agent) : HttpReply :=
  ⟨200, .memories (getMemories agent)⟩

/-- The `POST /memory` route: `storeMemory` is awaited and its
`MemoryResponse` sent with status 200. -/
def memoryPostRoute (agent : Option Agent) (request : MemoryRequest) (memId : String)
    (now : String) : HttpReply :=
  ⟨200, .memoryStored (storeMemory agent request memId now)⟩

/-- One inbound command at the gateway boundary: an HTTP request on
one of the dispatch routes, or a WebSocket frame (already attributed
to its connection id by the per-connection `message` listener); a
frame whose JSON parse failed is `wsFrame cid none`. -/
inductive InboundCommand where
  | httpChat (request : ChatRequest)
  | httpAction (request : ActionRequest)
  | httpMemoryGet
  | httpMemoryPost (request : MemoryRequest)
  | wsFrame (connectionId : String) (parsed : Option WebSocketMessage)
deriving Repr

/-- One reply delivered to an originator: a synchronous HTTP response,
or a frame sent on a WebSocket connection. -/
inductive Delivered where
  | http (reply : HttpReply)
  | ws (connectionId : String) (reply : WsReply)
deriving Repr, DecidableEq

/-- The whole gateway step for one inbound command: each `res.json` or
`ws.send` the source performs contributes one entry, so the list
length counts the replies the originator receives. A frame that fails
to parse is answered `{error: "Invalid message format"}` directly on
the closure WebSocket of the `message` listener, registry not
consulted. -/
def gatewayReplies (conns : Connections) (agent : Option Agent) (cmd : InboundCommand)
    (memId : String) (now : String) : List Delivered :=
  match cmd with
  | .httpChat request => [.http (chatRoute agent request now)]
  | .httpAction request => [.http (actionRoute agent request)]
  | .httpMemoryGet => [.http (memoryGetRoute agent)]
  | .httpMemoryPost request => [.http (memoryPostRoute agent request memId now)]
  | .wsFrame connectionId none => [.ws connectionId (.errorReply "Invalid message format")]
  | .wsFrame connectionId (some message) =>
    (handleWebSocketMessage conns agent connectionId message now).map
      (fun p => .ws p.1 p.2)

/-! ## Helper lemmas on the map and string primitives -/

theorem data_append (s t : String) : (s ++ t).data = s.data ++ t.data := rfl

theorem strStartsWith_bearer (t : String) :
    strStartsWith ("Bearer " ++ t) "Bearer " = true := by
  simp [strStartsWith, data_append]

theorem strDrop_bearer (t : String) : strDrop ("Bearer " ++ t) 7 = t := by
  obtain ⟨d⟩ := t
  simp only [strDrop, data_append]
  rw [List.drop_left' (by rfl)]

theorem bearer_recover (h : String) (hp : strStartsWith h "Bearer " = true) :
    h = "Bearer " ++ strDrop h 7 := by
  obtain ⟨d⟩ := h
  simp only [strStartsWith, List.isPrefixOf_iff_prefix] at hp
  obtain ⟨rest, hr⟩ := hp
  subst hr
  simp only [strDrop]
  rw [List.drop_left' (by rfl)]
  rfl

theorem mapGet_mapSet_self {α : Type} (m : List (String × α)) (k : String) (v : α) :
    mapGet (mapSet m k v) k = some v := by
  induction m with
  | nil => simp [mapSet, mapGet]
  | cons p rest ih =>
    by_cases h : p.1 = k <;> simp [mapSet, mapGet, h, ih]

theorem mapGet_mapSet_ne {α : Type} (m : List (String × α)) (k k' : String) (v : α)
    (h : k' ≠ k) : mapGet (mapSet m k v) k' = mapGet m k' := by
  induction m with
  | nil => simp [mapSet, mapGet, Ne.symm h]
  | cons p rest ih =>
    by_cases hp : p.1 = k
    · subst hp
      simp [mapSet, mapGet, Ne.symm h, h]
    · by_cases hp' : p.1 = k' <;> simp [mapSet, mapGet, hp, hp', ih, h]

theorem mapSet_length_of_isSome {α : Type} (m : List (String × α)) (k : String) (v : α)
    (h : (mapGet m k).isSome) : (mapSet m k v).length = m.length := by
  induction m with
  | nil => simp [mapGet] at h
  | cons p rest ih =>
    by_cases hp : p.1 = k
    · simp [mapSet, hp]
    · simp [mapGet, hp] at h
      simp [mapSet, hp, ih h]

theorem mapGet_mapDelete_self {α : Type} (m : List (String × α)) (k : String) :
    mapGet (mapDelete m k) k = none := by
  induction m with
  | nil => simp [mapDelete, mapGet]
  | cons p rest ih =>
    by_cases hp : p.1 = k <;> simp [mapDelete, mapGet, hp, ih]

theorem mapDelete_of_get_none {α : Type} (m : List (String × α)) (k : String)
    (h : mapGet m k = none) : mapDelete m k = m := by
  induction m with
  | nil => rfl
  | cons p rest ih =>
    by_cases hp : p.1 = k
    · simp [mapGet, hp] at h
    · simp [mapGet, hp] at h
      simp [mapDelete, hp, ih h]

/-! ## Concrete fixtures used by witnesses and counterexamples -/

/-- A memory store whose calls all succeed trivially. -/
def noMemory : MemoryStore :=
  { retrieve := fun _ _ _ => .ok [], store := fun _ _ => .ok () }

/-- Handler echoing its `text` parameter, taking 5 ms. -/
def echoAction : ExtensionAction :=
  { execute := fun ps =>
      (.ok { success := true, result := some ((ps.lookup "text").getD "") }, 5) }

/-- Handler that completes successfully only after 200000 ms, far past
the 30000 ms default timeout the specification describes. -/
def slowAction : ExtensionAction :=
  { execute := fun _ => (.ok { success := true, result := some "done" }, 200000) }

/-- Handler whose awaited `execute` raises. -/
def throwingAction : ExtensionAction :=
  { execute := fun _ => (.error "boom", 3) }

/-- A concrete initialized agent with three registered actions and no
portal. -/
def testAgent : Agent :=
  { id := "agent1", portal := none, memory := noMemory,
    extensions :=
      [{ actions := [("echo", echoAction), ("slow", slowAction), ("boom", throwingAction)] }] }

/-! ## Claim theorems -/

/-- C2 counterexample: `executeAction` enforces no timeout. A handler
that only completes after 200000 ms — far beyond the 30000 ms default
the claim names — still has its successful result delivered, with the
full elapsed time and no TIMEOUT failure, instead of the claimed
`Result{success:false, error:{TIMEOUT}}` at 30000 ms. -/
theorem no_timeout_counterexample :
    executeAction (some testAgent) { action := "slow" } =
      { success := true, result := some "done", error := none, executionTime := 200000 } := by
  rfl

/-- C2 amended: dispatch waits for handler completion unconditionally;
whatever elapsed time the awaited call takes, the handler's converted
result is returned as is, with that elapsed time — no timeout bound is
applied and no TIMEOUT error path exists. -/
theorem dispatch_awaits_handler_unconditionally (a : Agent) (request : ActionRequest)
    (action : ExtensionAction) (res : ActionResult) (elapsed : Nat)
    (hfind : findAction a.extensions request.action = some action)
    (hexec : action.execute request.parameters = (.ok res, elapsed)) :
    executeAction (some a) request =
      { success := res.success, result := res.result, error := res.error,
        executionTime := elapsed } := by
  simp [executeAction, hfind, hexec]

/-- Witness for the amended C2 at a handler taking 200000 ms. -/
theorem dispatch_awaits_handler_unconditionally_witness :
    executeAction (some testAgent) { action := "slow" } =
      { success := true, result := some "done", error := none,
        executionTime := 200000 } :=
  dispatch_awaits_handler_unconditionally testAgent { action := "slow" } slowAction
    { success := true, result := some "done" } 200000 (by rfl) (by rfl)

/-- C3: a handler whose awaited `execute` raises has the error caught
at the dispatch boundary and converted into a failure
`ActionResponse` carrying the message; since `executeAction` is a
total function into `ActionResponse`, no raised handler error
propagates past it. -/
theorem handler_raise_caught (a : Agent) (request : ActionRequest)
    (action : ExtensionAction) (msg : String) (elapsed : Nat)
    (hfind : findAction a.extensions request.action = some action)
    (hexec : action.execute request.parameters = (.error msg, elapsed)) :
    executeAction (some a) request =
      { success := false, result := none, error := some msg, executionTime := elapsed } := by
  simp [executeAction, hfind, hexec]

/-- Witness for C3 at the raising fixture handler. -/
theorem handler_raise_caught_witness :
    executeAction (some testAgent) { action := "boom" } =
      { success := false, result := none, error := some "boom", executionTime := 3 } :=
  handler_raise_caught testAgent { action := "boom" } throwingAction "boom" 3
    (by rfl) (by rfl)

/-- C4: a command whose name no extension has registered gets the
not-found failure response; no handler is resolved (the lookup over
every extension misses), and the reported elapsed time is 0 — no
timeout wait is incurred. -/
theorem unknown_action_not_found (a : Agent) (request : ActionRequest)
    (hmiss : findAction a.extensions request.action = none) :
    executeAction (some a) request =
      { success := false, result := none,
        error := some ("Action \x27" ++ request.action ++ "\x27 not found"),
        executionTime := 0 } := by
  simp [executeAction, hmiss]

/-- Witness for C4 at an unregistered action name. -/
theorem unknown_action_not_found_witness :
    executeAction (some testAgent) { action := "nope" } =
      { success := false, result := none,
        error := some "Action \x27nope\x27 not found", executionTime := 0 } :=
  unknown_action_not_found testAgent { action := "nope" } (by rfl)

/-- C5: the rate limiter is a per-key fixed window. With no window or
an expired one the call starts a fresh window (start := now, count 1)
and is admitted; inside the window the count increments with the start
kept, and the call is denied exactly when the post-increment count
exceeds `maxRequests` — the denied call keeps the window (same start,
incremented count recorded) rather than resetting it; the stored count
is always at least 1 (never negative); and admission for one client
key rewrites only that key's window. -/
theorem rate_limiter_fixed_window (cfg : RateLimitConfig) (w : RateWindow) (now : Nat)
    (m : List (String × RateWindow)) (key other : String) (hother : other ≠ key) :
    (rateLimitAdmit cfg none now = (true, ⟨now, 1⟩)) ∧
    (w.windowStart + cfg.windowMs ≤ now →
      rateLimitAdmit cfg (some w) now = (true, ⟨now, 1⟩)) ∧
    (now < w.windowStart + cfg.windowMs →
      (rateLimitAdmit cfg (some w) now).2 = ⟨w.windowStart, w.count + 1⟩ ∧
      ((rateLimitAdmit cfg (some w) now).1 = false ↔ cfg.maxRequests < w.count + 1)) ∧
    (1 ≤ (rateLimitAdmit cfg (some w) now).2.count) ∧
    ((rateLimitersAdmit cfg m key now).2 =
      mapSet m key (rateLimitAdmit cfg (mapGet m key) now).2) ∧
    (mapGet (rateLimitersAdmit cfg m key now).2 other = mapGet m other) := by
  refine ⟨rfl, ?_, ?_, ?_, rfl, ?_⟩
  · intro h
    simp [rateLimitAdmit, h]
  · intro h
    have hlt : ¬ w.windowStart + cfg.windowMs ≤ now := Nat.not_le.mpr h
    constructor
    · by_cases hc : cfg.maxRequests < w.count + 1 <;> simp [rateLimitAdmit, hlt, hc]
    · by_cases hc : cfg.maxRequests < w.count + 1 <;> simp [rateLimitAdmit, hlt, hc]
  · dsimp only [rateLimitAdmit]
    split_ifs <;> simp
  · exact mapGet_mapSet_ne _ _ _ _ hother

/-- Witness for C5: the spec scenario with `maxRequests := 3`,
`windowSizeMs := 1000` (three admissions, a denial, then a fresh
window after expiry), the denied call keeping its window with the
count recorded, and per-key isolation. -/
theorem rate_limiter_fixed_window_witness :
    (rateLimitAdmit ⟨1000, 3⟩ (some ⟨0, 3⟩) 30).2 = ⟨0, 4⟩ ∧
    (rateLimitAdmit ⟨1000, 3⟩ (some ⟨0, 3⟩) 30).1 = false ∧
    rateLimitAdmit ⟨1000, 3⟩ (some ⟨0, 2⟩) 1005 = (true, ⟨1005, 1⟩) ∧
    mapGet (rateLimitersAdmit ⟨1000, 3⟩ [("alice", ⟨0, 2⟩)] "alice" 30).2 "bob" = none ∧
    rateLimitRun ⟨1000, 3⟩ none [0, 10, 20, 30, 1005] = [true, true, true, false, true] := by
  have h := rate_limiter_fixed_window ⟨1000, 3⟩ ⟨0, 3⟩ 30 [("alice", ⟨0, 2⟩)] "alice" "bob"
    (by decide)
  have h2 := rate_limiter_fixed_window ⟨1000, 3⟩ ⟨0, 2⟩ 1005 [] "k" "o" (by decide)
  refine ⟨(h.2.2.1 (by decide)).1, (h.2.2.1 (by decide)).2.mpr (by decide),
    h2.2.1 (by decide), ?_, by decide⟩
  rw [h.2.2.2.2.2]
  decide

/-- C6: with auth enabled, a missing header, a header that is not a
bearer token, and a bearer token different from the configured secret
are all denied 401 before dispatch; the matching bearer token, and
every request when auth is disabled, pass through; moreover a pass
with auth enabled happens only for exactly the matching bearer
header. -/
theorem auth_gate (secret t : String) (hdr : Option String) (hwrong : t ≠ secret) :
    (admitAuth false secret hdr = .passed) ∧
    (admitAuth true secret none = .denied 401 "Unauthorized") ∧
    (∀ s, strStartsWith s "Bearer " = false →
      admitAuth true secret (some s) = .denied 401 "Unauthorized") ∧
    (admitAuth true secret (some ("Bearer " ++ t)) = .denied 401 "Invalid token") ∧
    (admitAuth true secret (some ("Bearer " ++ secret)) = .passed) ∧
    (∀ s, admitAuth true secret (some s) = .passed → s = "Bearer " ++ secret) := by
  refine ⟨rfl, rfl, ?_, ?_, ?_, ?_⟩
  · intro s hs
    simp [admitAuth, authMiddleware, hs]
  · simp [admitAuth, authMiddleware, strStartsWith_bearer, strDrop_bearer, hwrong]
  · simp [admitAuth, authMiddleware, strStartsWith_bearer, strDrop_bearer]
  · intro s hs
    simp only [admitAuth, authMiddleware, if_true] at hs
    by_cases hpre : strStartsWith s "Bearer " = true
    · rw [hpre] at hs
      simp only [Bool.not_true] at hs
      by_cases htok : strDrop s 7 = secret
      · rw [bearer_recover s hpre, htok]
      · simp [htok] at hs
    · simp [hpre] at hs

/-- Witness for C6 at `secret`, a wrong token, a malformed header and
the matching header. -/
theorem auth_gate_witness :
    admitAuth false "secret" (some "Token abc") = .passed ∧
    admitAuth true "secret" none = .denied 401 "Unauthorized" ∧
    admitAuth true "secret" (some "Token abc") = .denied 401 "Unauthorized" ∧
    admitAuth true "secret" (some ("Bearer " ++ "wrong")) = .denied 401 "Invalid token" ∧
    admitAuth true "secret" (some ("Bearer " ++ "secret")) = .passed := by
  have h := auth_gate "secret" "wrong" (some "Token abc") (by decide)
  exact ⟨h.1, h.2.1, h.2.2.1 "Token abc" (by decide), h.2.2.2.1, h.2.2.2.2.1⟩

/-- C7 counterexample: a frame of type `command` on a registered
connection is answered with the bare `{error: "Unknown message type"}`
object — there is no `command_response` discriminator and no
`BAD_INPUT` kind; the handled discriminators are `ping` and `chat`. -/
theorem command_frame_counterexample :
    handleWebSocketMessage [("c1", 7)] (some testAgent) "c1" ⟨"command", ""⟩ "t0" =
      [("c1", .errorReply "Unknown message type")] := by
  rfl

/-- C7 amended: on a registered connection, a `ping` frame is answered
`pong`, a `chat` frame is answered with a `chat_response` envelope,
and every other type — `command` included — is answered with the bare
`{error: "Unknown message type"}` object, which carries no kind
field. -/
theorem ws_frame_discriminators (conns : Connections) (agent : Option Agent)
    (cid : String) (message : WebSocketMessage) (now : String) (ws : WsChannel)
    (hreg : mapGet conns cid = some ws) :
    (message.type = "ping" →
      handleWebSocketMessage conns agent cid message now = [(cid, .pong now)]) ∧
    (message.type = "chat" →
      handleWebSocketMessage conns agent cid message now =
        [(cid, .chatResponse (processChatMessage agent { message := message.data } now))]) ∧
    (message.type ≠ "ping" → message.type ≠ "chat" →
      handleWebSocketMessage conns agent cid message now =
        [(cid, .errorReply "Unknown message type")]) := by
  refine ⟨?_, ?_, ?_⟩
  · intro h
    simp [handleWebSocketMessage, hreg, h]
  · intro h
    simp [handleWebSocketMessage, hreg, h]
  · intro h1 h2
    simp [handleWebSocketMessage, hreg, h1, h2]

/-- Witness for the amended C7 at the three frame kinds. -/
theorem ws_frame_discriminators_witness :
    handleWebSocketMessage [("c1", 7)] none "c1" ⟨"ping", ""⟩ "t1" = [("c1", .pong "t1")] ∧
    handleWebSocketMessage [("c1", 7)] none "c1" ⟨"chat", "hi"⟩ "t1" =
      [("c1", .chatResponse (processChatMessage none { message := "hi" } "t1"))] ∧
    handleWebSocketMessage [("c1", 7)] none "c1" ⟨"status", ""⟩ "t1" =
      [("c1", .errorReply "Unknown message type")] := by
  have h1 := ws_frame_discriminators [("c1", 7)] none "c1" ⟨"ping", ""⟩ "t1" 7 (by decide)
  have h2 := ws_frame_discriminators [("c1", 7)] none "c1" ⟨"chat", "hi"⟩ "t1" 7 (by decide)
  have h3 := ws_frame_discriminators [("c1", 7)] none "c1" ⟨"status", ""⟩ "t1" 7 (by decide)
  exact ⟨h1.1 rfl, h2.2.1 rfl, h3.2.2 (by decide) (by decide)⟩

/-- C8: unregistering is idempotent (removing twice equals removing
once, and removing an id that is absent leaves the registry unchanged,
never an error), a removed id no longer resolves, and a frame arriving
for an id absent from the registry produces no send and no error. -/
theorem registry_removal_safe (conns : Connections) (cid : String) (agent : Option Agent)
    (message : WebSocketMessage) (now : String) :
    (unregisterConnection (unregisterConnection conns cid) cid =
      unregisterConnection conns cid) ∧
    (mapGet conns cid = none → unregisterConnection conns cid = conns) ∧
    (mapGet (unregisterConnection conns cid) cid = none) ∧
    (mapGet conns cid = none →
      handleWebSocketMessage conns agent cid message now = []) := by
  refine ⟨?_, ?_, ?_, ?_⟩
  · exact mapDelete_of_get_none _ _ (mapGet_mapDelete_self conns cid)
  · exact fun h => mapDelete_of_get_none _ _ h
  · exact mapGet_mapDelete_self conns cid
  · intro h
    simp [handleWebSocketMessage, h]

/-- Witness for C8: double removal, removal of an unknown id, and a
frame for an unregistered id. -/
theorem registry_removal_safe_witness :
    unregisterConnection (unregisterConnection [("a", 1)] "a") "a" =
      unregisterConnection [("a", 1)] "a" ∧
    unregisterConnection [("a", 1)] "b" = [("a", 1)] ∧
    handleWebSocketMessage [("a", 1)] none "b" ⟨"ping", ""⟩ "t1" = [] := by
  have ha := registry_removal_safe [("a", 1)] "a" none ⟨"ping", ""⟩ "t1"
  have hb := registry_removal_safe [("a", 1)] "b" none ⟨"ping", ""⟩ "t1"
  exact ⟨ha.1, hb.2.1 (by decide), hb.2.2.2 (by decide)⟩

/-- C9 counterexample: two distinct registrations (physical
connections 1 and 2) whose random draws are equal receive the same
connection id, and the second registration overwrites the first
registry entry — the id is reused for a different physical connection
within the process lifetime. -/
theorem connection_id_reuse_counterexample :
    (registerConnection [] "0.k5s8t2p9q1w3z" 1).1 =
      (registerConnection (registerConnection [] "0.k5s8t2p9q1w3z" 1).2
        "0.k5s8t2p9q1w3z" 2).1 ∧
    (registerConnection (registerConnection [] "0.k5s8t2p9q1w3z" 1).2
        "0.k5s8t2p9q1w3z" 2).2 = [("k5s8t2p9q1w3z", 2)] := by
  decide

/-- C9 amended: the connection id is a pure function of the random
draw (characters 2 through 14 of its base-36 string) with no
uniqueness check: the registered id resolves to the new channel, ids
other than the generated one are untouched, and when the generated id
already exists in the registry the entry is overwritten in place (the
registry does not grow), so distinct registrations receive distinct
ids only when their random draws produce distinct substrings. -/
theorem register_connection_behavior (conns : Connections) (randStr : String)
    (ws : WsChannel) (k : String) (hk : k ≠ generateConnectionId randStr) :
    (registerConnection conns randStr ws).1 = generateConnectionId randStr ∧
    mapGet (registerConnection conns randStr ws).2 (generateConnectionId randStr) =
      some ws ∧
    mapGet (registerConnection conns randStr ws).2 k = mapGet conns k ∧
    ((mapGet conns (generateConnectionId randStr)).isSome →
      ((registerConnection conns randStr ws).2).length = conns.length) := by
  exact ⟨rfl, mapGet_mapSet_self _ _ _, mapGet_mapSet_ne _ _ _ _ hk,
    fun h => mapSet_length_of_isSome _ _ _ h⟩

/-- Witness for the amended C9 at a colliding registration. -/
theorem register_connection_behavior_witness :
    (registerConnection [("k5s8t2p9q1w3z", 5)] "0.k5s8t2p9q1w3z" 9).1 =
      "k5s8t2p9q1w3z" ∧
    mapGet (registerConnection [("k5s8t2p9q1w3z", 5)] "0.k5s8t2p9q1w3z" 9).2
      "k5s8t2p9q1w3z" = some 9 ∧
    mapGet (registerConnection [("k5s8t2p9q1w3z", 5)] "0.k5s8t2p9q1w3z" 9).2 "x" =
      mapGet [("k5s8t2p9q1w3z", 5)] "x" ∧
    ((registerConnection [("k5s8t2p9q1w3z", 5)] "0.k5s8t2p9q1w3z" 9).2).length = 1 := by
  have hg : generateConnectionId "0.k5s8t2p9q1w3z" = "k5s8t2p9q1w3z" := by decide
  have h := register_connection_behavior [("k5s8t2p9q1w3z", 5)] "0.k5s8t2p9q1w3z" 9 "x"
    (by decide)
  refine ⟨hg ▸ h.1, hg ▸ h.2.1, h.2.2.1, ?_⟩
  have hl := h.2.2.2 (by rw [hg]; decide)
  exact hl.trans rfl

/-- C10: a chat command reaching an uninitialized agent, or an agent
without a portal, is answered with a success-shaped `ChatResponse`
whose text says so — status 200 with the plain body over HTTP (given a
non-empty message), a `chat_response` envelope over a registered
WebSocket — never an error status or error envelope. -/
theorem uninitialized_chat_success_shaped (request : ChatRequest) (a : Agent)
    (conns : Connections) (cid dataStr now : String) (ws : WsChannel)
    (hmsg : request.message ≠ "") (hport : a.portal = none)
    (hreg : mapGet conns cid = some ws) :
    (chatRoute none request now =
      ⟨200, .chat { response := "Agent not initialized", timestamp := now }⟩) ∧
    (chatRoute (some a) request now =
      ⟨200, .chat { response := "No portal configured for agent", timestamp := now }⟩) ∧
    (handleWebSocketMessage conns none cid ⟨"chat", dataStr⟩ now =
      [(cid, .chatResponse { response := "Agent not initialized", timestamp := now })]) ∧
    (handleWebSocketMessage conns (some a) cid ⟨"chat", dataStr⟩ now =
      [(cid, .chatResponse
        { response := "No portal configured for agent", timestamp := now })]) := by
  refine ⟨?_, ?_, ?_, ?_⟩
  · simp [chatRoute, hmsg, processChatMessage]
  · simp [chatRoute, hmsg, processChatMessage, hport]
  · simp [handleWebSocketMessage, hreg, processChatMessage]
  · simp [handleWebSocketMessage, hreg, processChatMessage, hport]

/-- Witness for C10 at a concrete request, the portal-less fixture
agent and a registered connection. -/
theorem uninitialized_chat_success_shaped_witness :
    (chatRoute none { message := "hello" } "t0" =
      ⟨200, .chat { response := "Agent not initialized", timestamp := "t0" }⟩) ∧
    (chatRoute (some testAgent) { message := "hello" } "t0" =
      ⟨200, .chat { response := "No portal configured for agent", timestamp := "t0" }⟩) ∧
    (handleWebSocketMessage [("c1", 7)] none "c1" ⟨"chat", "hi"⟩ "t0" =
      [("c1", .chatResponse { response := "Agent not initialized", timestamp := "t0" })]) ∧
    (handleWebSocketMessage [("c1", 7)] (some testAgent) "c1" ⟨"chat", "hi"⟩ "t0" =
      [("c1", .chatResponse
        { response := "No portal configured for agent", timestamp := "t0" })]) :=
  uninitialized_chat_success_shaped { message := "hello" } testAgent [("c1", 7)]
    "c1" "hi" "t0" 7 (by decide) rfl (by decide)

/-- C1: every inbound command — an HTTP `/chat`, `/memory` or
`/action` request, or a WebSocket frame for a registered connection
(parse failures included) — produces exactly one reply to its
originator, for every agent state (uninitialized included) and every
handler outcome (raising included). -/
theorem every_command_exactly_one_result (conns : Connections) (agent : Option Agent)
    (cmd : InboundCommand) (memId now : String)
    (hreg : ∀ cid message, cmd = .wsFrame cid (some message) →
      (mapGet conns cid).isSome) :
    (gatewayReplies conns agent cmd memId now).length = 1 := by
  cases cmd with
  | httpChat request =>
    rfl
  | httpAction request =>
    rfl
  | httpMemoryGet =>
    rfl
  | httpMemoryPost request =>
    rfl
  | wsFrame cid parsed =>
    cases parsed with
    | none => rfl
    | some message =>
      have h := hreg cid message rfl
      simp only [gatewayReplies, handleWebSocketMessage]
      cases hm : mapGet conns cid with
      | none =>
        rw [hm] at h
        simp at h
      | some ws =>
        by_cases hp : message.type = "ping"
        · simp [hp]
        · by_cases hc : message.type = "chat"
          · simp [hp, hc]
          · simp [hp, hc]

/-- Witness for C1 at a chat frame on a registered connection with an
uninitialized agent. -/
theorem every_command_exactly_one_result_witness :
    (gatewayReplies [("c1", 7)] none (.wsFrame "c1" (some ⟨"chat", "hi"⟩))
      "m1" "t1").length = 1 :=
  every_command_exactly_one_result [("c1", 7)] none
    (.wsFrame "c1" (some ⟨"chat", "hi"⟩)) "m1" "t1"
    (by
      intro cid message h
      injection h with h1 h2
      subst h1
      decide)

end SYMindX
